import Mathlib

/-!
Shallow embedding of the registration / coordinate-mapping core of the
mfaCTpy repository (src/landmark_registration.py, src/fiber_tracker.py,
src/midline_alignment.py), with theorems settling the specification
claims about it.  Python floats are modelled as exact numbers (ℚ where the
code performs only field operations and comparisons, ℝ where square roots
and inverse trigonometric functions occur); numpy arrays are modelled as
total functions together with an explicit shape.
-/

namespace MfaCT

/-! ### Landmark-based registration: input validation
    (src/landmark_registration.py, `LandmarkRegistration.landmark_registration`) -/

/-- `min_landmarks = {'rigid': 3, 'similarity': 3, 'affine': 4}` followed by
`min_landmarks.get(transform_type, 4)`. -/
def min_landmarks_get (transform_type : String) : Nat :=
  if transform_type = "rigid" then 3
  else if transform_type = "similarity" then 3
  else if transform_type = "affine" then 4
  else 4

/-- The error dispositions `landmark_registration` can raise before any
external library call: the too-few-landmarks `ValueError` and the
unknown-transform-type `ValueError`. -/
inductive RegError where
  | insufficientLandmarks (need : Nat) (transform_type : String)
  | unknownTransformType (transform_type : String)
  deriving DecidableEq, Repr

/-- The validation prefix of `landmark_registration`: first the landmark-count
check against `min_landmarks.get(transform_type, 4)` (raising on too few
pairs), then the transform-type dispatch (raising on an unknown kind). -/
def landmark_registration_validate (numPairs : Nat) (transform_type : String) :
    Except RegError Unit :=
  if numPairs < min_landmarks_get transform_type then
    .error (.insufficientLandmarks (min_landmarks_get transform_type) transform_type)
  else if transform_type = "affine" then .ok ()
  else if transform_type = "similarity" then .ok ()
  else if transform_type = "rigid" then .ok ()
  else .error (.unknownTransformType transform_type)

/-! ### Point transformation and region lookup
    (src/fiber_tracker.py, `FiberTracker.transform_point_to_ccf` and
    `FiberTracker.get_region_at_point`) -/

/-- A 3D point in (Z, Y, X) voxel-index order. -/
abbrev Point3 := ℤ × ℤ × ℤ

/-- `FiberTracker.transform_point_to_ccf`.  `use_registered` selects the
direct 1:1 mapping; otherwise a missing transform falls back to the direct
mapping, and a present transform is applied in physical (x, y, z)
coordinates with round-to-nearest back-conversion. -/
def transform_point_to_ccf (use_registered : Bool)
    (transform : Option ((ℚ × ℚ × ℚ) → (ℚ × ℚ × ℚ))) (spacing : ℚ)
    (z y x : ℤ) : Point3 :=
  if use_registered then (z, y, x)
  else
    match transform with
    | none => (z, y, x)
    | some t =>
        let point_physical : ℚ × ℚ × ℚ :=
          ((x : ℚ) * spacing, (y : ℚ) * spacing, (z : ℚ) * spacing)
        let ccf_physical := t point_physical
        let x_ccf : ℤ := round (ccf_physical.1 / spacing)
        let y_ccf : ℤ := round (ccf_physical.2.1 / spacing)
        let z_ccf : ℤ := round (ccf_physical.2.2 / spacing)
        (z_ccf, y_ccf, x_ccf)

/-- The dictionary `get_region_at_point` returns (its plot-irrelevant debug
printing dropped). -/
structure RegionLookup where
  id : Option ℤ
  name : String
  acronym : String
  hierarchy : List String
  ccf_coords : Option Point3
  deriving DecidableEq, Repr

/-- The annotation volume: a (Z, Y, X) shape plus the stored region id at
each voxel. -/
structure AnnotationVolume where
  shape : ℕ × ℕ × ℕ
  data : ℤ → ℤ → ℤ → ℤ

/-- The ontology record dictionary held by `AllenCCFOntology.id_to_info`. -/
structure RegionInfo where
  id : ℤ
  name : String
  acronym : String
  parent_id : Option ℤ
  color_hex : String
  deriving DecidableEq, Repr

/-- `AllenCCFOntology.get_region_info`: id 0 is the fixed 'Outside Brain'
record; otherwise look up `id_to_info`, defaulting to a synthetic
`Unknown_Region` record. -/
def get_region_info (id_to_info : ℤ → Option RegionInfo) (region_id : ℤ) :
    RegionInfo :=
  if region_id = 0 then
    { id := 0, name := "Outside Brain", acronym := "OUT",
      parent_id := none, color_hex := "000000" }
  else
    (id_to_info region_id).getD
      { id := region_id, name := "Unknown_Region_" ++ toString region_id,
        acronym := "UNK" ++ toString region_id,
        parent_id := none, color_hex := "FFFFFF" }

/-- The while-loop of `AllenCCFOntology.get_region_hierarchy`, with the
remaining iteration budget `max_depth - depth` as explicit fuel: while the
current id is not `None` and the budget is not exhausted, append the current
region's name, step to its parent id, and break once the parent id equals
the root id 997. -/
def hierarchy_loop (id_to_info : ℤ → Option RegionInfo) :
    Option ℤ → Nat → List String
  | _, 0 => []
  | none, _ => []
  | some current_id, fuel + 1 =>
      let info := get_region_info id_to_info current_id
      info.name ::
        (if info.parent_id = some 997 then []
         else hierarchy_loop id_to_info info.parent_id fuel)

/-- `AllenCCFOntology.get_region_hierarchy(region_id, max_depth)`. -/
def get_region_hierarchy (id_to_info : ℤ → Option RegionInfo)
    (region_id : ℤ) (max_depth : Nat) : List String :=
  hierarchy_loop id_to_info (some region_id) max_depth

/-- The in-CCF-space part of `FiberTracker.get_region_at_point`: bounds
validation against the annotation shape, background classification of the
stored id 0, and the ontology lookup for any other stored id.  Out-of-range
coordinates yield the 'Out of Bounds' record as a value. -/
def classify_ccf_point (ann : AnnotationVolume)
    (id_to_info : ℤ → Option RegionInfo) (z_ccf y_ccf x_ccf : ℤ) :
    RegionLookup :=
  if z_ccf < 0 ∨ (ann.shape.1 : ℤ) ≤ z_ccf ∨
     y_ccf < 0 ∨ (ann.shape.2.1 : ℤ) ≤ y_ccf ∨
     x_ccf < 0 ∨ (ann.shape.2.2 : ℤ) ≤ x_ccf then
    { id := some (-1), name := "Out of Bounds", acronym := "OOB",
      hierarchy := [], ccf_coords := some (z_ccf, y_ccf, x_ccf) }
  else
    let region_id := ann.data z_ccf y_ccf x_ccf
    if region_id = 0 then
      { id := some 0, name := "Outside Brain", acronym := "OUT",
        hierarchy := [], ccf_coords := some (z_ccf, y_ccf, x_ccf) }
    else
      let info := get_region_info id_to_info region_id
      { id := some region_id, name := info.name, acronym := info.acronym,
        hierarchy := get_region_hierarchy id_to_info region_id 10,
        ccf_coords := some (z_ccf, y_ccf, x_ccf) }

/-- `FiberTracker.get_region_at_point` with an annotation volume loaded:
transform the microCT-space point to CCF space, then classify it there. -/
def get_region_at_point (ann : AnnotationVolume)
    (id_to_info : ℤ → Option RegionInfo) (use_registered : Bool)
    (transform : Option ((ℚ × ℚ × ℚ) → (ℚ × ℚ × ℚ))) (spacing : ℚ)
    (z y x : ℤ) : RegionLookup :=
  let p := transform_point_to_ccf use_registered transform spacing z y x
  classify_ccf_point ann id_to_info p.1 p.2.1 p.2.2

/-! ### Landmark selector state machine
    (src/landmark_registration.py, `LandmarkSelector.onclick` /
    `LandmarkSelector.on_undo` / `save_landmarks` / `load_landmarks`) -/

/-- The landmark-relevant mutable state of `LandmarkSelector`. -/
structure SelectorState where
  moving_landmarks : List Point3
  fixed_landmarks : List Point3
  landmark_names : List String
  deriving DecidableEq, Repr

/-- The moving-image branch of `LandmarkSelector.onclick`: unconditionally
append the clicked landmark to `moving_landmarks`. -/
def onclick_moving (s : SelectorState) (landmark : Point3) : SelectorState :=
  { s with moving_landmarks := s.moving_landmarks ++ [landmark] }

/-- The fixed-image branch of `LandmarkSelector.onclick`: refuse (warn and
return) when the fixed count already reaches the moving count; otherwise
append the landmark and its default name. -/
def onclick_fixed (s : SelectorState) (landmark : Point3) : SelectorState :=
  if s.moving_landmarks.length ≤ s.fixed_landmarks.length then s
  else
    { s with
      fixed_landmarks := s.fixed_landmarks ++ [landmark],
      landmark_names :=
        s.landmark_names ++
          ["Point_" ++ toString (s.fixed_landmarks.length + 1)] }

/-- `LandmarkSelector.on_undo`: pop a complete pair (and a name when one
exists) when both lists are nonempty, pop a single unpaired moving landmark
when only the moving list is nonempty, and do nothing otherwise. -/
def on_undo (s : SelectorState) : SelectorState :=
  if s.moving_landmarks ≠ [] ∧ s.fixed_landmarks ≠ [] then
    { moving_landmarks := s.moving_landmarks.dropLast,
      fixed_landmarks := s.fixed_landmarks.dropLast,
      landmark_names :=
        if s.landmark_names ≠ [] then s.landmark_names.dropLast
        else s.landmark_names }
  else if s.moving_landmarks ≠ [] then
    { s with moving_landmarks := s.moving_landmarks.dropLast }
  else s

/-- The invariant claimed of the selector: never more fixed landmarks than
moving landmarks. -/
def pairing_invariant (s : SelectorState) : Prop :=
  s.fixed_landmarks.length ≤ s.moving_landmarks.length

instance (s : SelectorState) : Decidable (pairing_invariant s) := by
  unfold pairing_invariant; infer_instance

/-- The JSON dictionary written by `LandmarkSelector.save_landmarks`
(coordinate triples serialized as plain lists). -/
structure LandmarkFile where
  moving_landmarks : List (List ℤ)
  fixed_landmarks : List (List ℤ)
  landmark_names : List String
  moving_name : String
  fixed_name : String
  num_pairs : Nat
  coordinate_convention : String
  deriving DecidableEq, Repr

/-- `list(lm)` applied to a (Z, Y, X) tuple. -/
def tuple_to_list (p : Point3) : List ℤ := [p.1, p.2.1, p.2.2]

/-- `tuple(lm)` applied to a serialized coordinate list (landmark files
written by `save_landmarks` always hold three entries per landmark). -/
def list_to_tuple (l : List ℤ) : Point3 :=
  match l with
  | [z, y, x] => (z, y, x)
  | _ => (0, 0, 0)

/-- `LandmarkSelector.save_landmarks`: build the dictionary that is dumped
to JSON. -/
def save_landmarks (s : SelectorState) (moving_name fixed_name : String) :
    LandmarkFile :=
  { moving_landmarks := s.moving_landmarks.map tuple_to_list,
    fixed_landmarks := s.fixed_landmarks.map tuple_to_list,
    landmark_names := s.landmark_names,
    moving_name := moving_name,
    fixed_name := fixed_name,
    num_pairs := s.fixed_landmarks.length,
    coordinate_convention := "Z, Y, X" }

/-- `LandmarkSelector.load_landmarks`: replace the landmark state from the
parsed file, converting each coordinate list back to a tuple. -/
def load_landmarks (s : SelectorState) (f : LandmarkFile) : SelectorState :=
  { s with
    moving_landmarks := f.moving_landmarks.map list_to_tuple,
    fixed_landmarks := f.fixed_landmarks.map list_to_tuple,
    landmark_names := f.landmark_names }

/-! ### Midline plane fitting and alignment
    (src/midline_alignment.py, `MidlineAligner.fit_midline_plane` and
    `MidlineAligner.apply_alignment`).  Floating-point vectors and angles
    are modelled exactly over ℝ. -/

/-- A 3D vector in (x, y, z) space order, as used by `fit_midline_plane`. -/
@[ext]
structure Vec3 where
  x : ℝ
  y : ℝ
  z : ℝ

noncomputable section

/-- `np.dot`. -/
def vdot (a b : Vec3) : ℝ := a.x * b.x + a.y * b.y + a.z * b.z

/-- `np.cross`. -/
def vcross (a b : Vec3) : Vec3 :=
  ⟨a.y * b.z - a.z * b.y, a.z * b.x - a.x * b.z, a.x * b.y - a.y * b.x⟩

/-- Scalar multiplication of a vector. -/
def vsmul (c : ℝ) (v : Vec3) : Vec3 := ⟨c * v.x, c * v.y, c * v.z⟩

/-- Vector addition. -/
def vadd (a b : Vec3) : Vec3 := ⟨a.x + b.x, a.y + b.y, a.z + b.z⟩

/-- Vector negation. -/
def vneg (v : Vec3) : Vec3 := ⟨-v.x, -v.y, -v.z⟩

/-- `np.linalg.norm`. -/
def vnorm (v : Vec3) : ℝ := Real.sqrt (vdot v v)

/-- `Rotation.from_rotvec(angle * axis).apply(v)` for a unit `axis`:
Rodrigues' rotation formula. -/
def rodrigues (axis : Vec3) (angle : ℝ) (v : Vec3) : Vec3 :=
  vadd (vadd (vsmul (Real.cos angle) v)
             (vsmul (Real.sin angle) (vcross axis v)))
       (vsmul ((1 - Real.cos angle) * vdot axis v) axis)

/-- `target_normal = np.array([1.0, 0.0, 0.0])`: the canonical +X axis. -/
def target_normal : Vec3 := ⟨1, 0, 0⟩

/-- `rotation_axis = np.cross(normal, target_normal)` (before
normalization). -/
def raw_rotation_axis (normal : Vec3) : Vec3 := vcross normal target_normal

/-- `rotation_axis_norm = np.linalg.norm(rotation_axis)`. -/
def rotation_axis_norm (normal : Vec3) : ℝ := vnorm (raw_rotation_axis normal)

/-- `rotation_axis / rotation_axis_norm`: the normalized candidate axis. -/
def cand_axis (normal : Vec3) : Vec3 :=
  vsmul (1 / rotation_axis_norm normal) (raw_rotation_axis normal)

/-- `cos_angle = np.clip(np.dot(normal, target_normal), -1.0, 1.0)`. -/
def cos_angle (normal : Vec3) : ℝ :=
  max (-1) (min 1 (vdot normal target_normal))

/-- `rotation_angle = np.arccos(cos_angle)`: the candidate angle. -/
def cand_angle (normal : Vec3) : ℝ := Real.arccos (cos_angle normal)

/-- `rotated_normal = rot_test.apply(normal)`: the candidate rotation
applied to the fitted normal in the verification step. -/
def rotated_normal (normal : Vec3) : Vec3 :=
  rodrigues (cand_axis normal) (cand_angle normal) normal

/-- The axis/angle computation of `fit_midline_plane` on the
(sign-oriented) fitted plane normal: the degenerate branch when the cross
product's magnitude does not exceed `1e-6`, and otherwise the candidate
axis/angle followed by the verification step that negates both when the
rotated normal's dot with the target fell by more than `1e-8`. -/
def fit_rotation (normal : Vec3) : Vec3 × ℝ :=
  if rotation_axis_norm normal > 1e-6 then
    if vdot (rotated_normal normal) target_normal <
        vdot normal target_normal - 1e-8 then
      (vneg (cand_axis normal), -(cand_angle normal))
    else
      (cand_axis normal, cand_angle normal)
  else
    (⟨0, 0, 1⟩, 0)

/-- The possible outcomes of `MidlineAligner.apply_alignment`: the source
image object returned as-is by the short-circuit, or the
resample-clip-cast pipeline applied with the effective angle and axis. -/
inductive AlignResult (V : Type) where
  | original (image : V)
  | resampled (image : V) (angle : ℝ) (axis : Vec3)

/-- The effective rotation angle of `apply_alignment`: the mandatory
handedness negation (`rotation_angle = -rotation_angle`) followed by the
optional `reverse` negation. -/
def net_angle (rotation_angle : ℝ) (reverse : Bool) : ℝ :=
  if reverse then -(-rotation_angle) else -rotation_angle

/-- `MidlineAligner.apply_alignment`: negate the fitted angle for the
coordinate-handedness mismatch, optionally negate again when `reverse` is
requested, and short-circuit to the untouched source image when the result
is negligible; otherwise run the full-resolution resampling pipeline. -/
def apply_alignment {V : Type} (image : V) (rotation_angle : ℝ)
    (rotation_axis : Vec3) (reverse : Bool) : AlignResult V :=
  let angle := net_angle rotation_angle reverse
  if |angle| < 0.001 then .original image
  else .resampled image angle rotation_axis

end

/-! ### Closed-form affine landmark solve (spec-modelled) -/

/-- Physical landmark coordinate as a homogeneous column (x, y, z, 1). -/
def homog (p : ℚ × ℚ × ℚ) : Fin 4 → ℚ := ![p.1, p.2.1, p.2.2, 1]

/-- The rank-one outer product h·hᵀ of a homogeneous coordinate. -/
def outer4 (v : Fin 4 → ℚ) : Matrix (Fin 4) (Fin 4) ℚ :=
  Matrix.of fun i j => v i * v j

/-- Modelled from the spec: the normal-equations matrix of the
12-parameter affine least-squares system is not implemented under `src/` —
`LandmarkRegistration.landmark_registration` delegates the affine solve to
an external library call.  Per the spec, the system is solved "via the
normal equations over homogeneous subject coordinates", whose coefficient
matrix is N = Σᵢ hᵢ·hᵢᵀ over the homogeneous subject points hᵢ. -/
def affine_normal_matrix (moving : List (ℚ × ℚ × ℚ)) :
    Matrix (Fin 4) (Fin 4) ℚ :=
  (moving.map fun p => outer4 (homog p)).sum

/-- The geometric error disposition of the landmark solver. -/
inductive SolveError where
  | degenerateConfiguration
  deriving DecidableEq, Repr

/-- The right-hand side Σᵢ hᵢ·fᵢᵀ of the normal equations, over the paired
reference (fixed) points fᵢ. -/
def affine_rhs (moving fixed : List (ℚ × ℚ × ℚ)) :
    Matrix (Fin 4) (Fin 3) ℚ :=
  ((moving.zip fixed).map fun mf =>
      Matrix.of fun i j => homog mf.1 i * ![mf.2.1, mf.2.2.1, mf.2.2.2] j).sum

/-- Modelled from the spec: the affine landmark solve itself is not
implemented under `src/`.  Per the spec: "Affine: solve the 12-parameter
least-squares system (3×4 matrix including translation) via the normal
equations over homogeneous subject coordinates; fails with
`DegenerateConfiguration` if the normal-equations matrix is singular
(points coplanar/collinear)."  The solution columns are N⁻¹·(Σ hᵢ·fᵢᵀ),
with N⁻¹ written through the adjugate so the solver stays executable. -/
def solve_affine (moving fixed : List (ℚ × ℚ × ℚ)) :
    Except SolveError (Matrix (Fin 4) (Fin 3) ℚ) :=
  let N := affine_normal_matrix moving
  if N.det = 0 then .error .degenerateConfiguration
  else .ok ((N.det)⁻¹ • (N.adjugate * affine_rhs moving fixed))

/-! ## Theorems -/

/-- C1: landmark-based registration with a transform kind in
{rigid, similarity, affine} raises the too-few-landmarks input-validation
error exactly when the pair count is below the kind's minimum (3 for
rigid, 3 for similarity, 4 for affine), and with at least that many pairs
the validation succeeds without taking that error branch. -/
theorem landmark_registration_min_landmarks (transform_type : String)
    (numPairs : Nat)
    (h : transform_type = "rigid" ∨ transform_type = "similarity" ∨
      transform_type = "affine") :
    (numPairs < min_landmarks_get transform_type →
      landmark_registration_validate numPairs transform_type =
        .error (.insufficientLandmarks (min_landmarks_get transform_type)
          transform_type)) ∧
    (min_landmarks_get transform_type ≤ numPairs →
      landmark_registration_validate numPairs transform_type = .ok ()) ∧
    min_landmarks_get "rigid" = 3 ∧ min_landmarks_get "similarity" = 3 ∧
    min_landmarks_get "affine" = 4 := by
  refine ⟨fun hlt => ?_, fun hge => ?_, by decide, by decide, by decide⟩
  · unfold landmark_registration_validate
    rw [if_pos hlt]
  · unfold landmark_registration_validate
    rw [if_neg (not_lt.mpr hge)]
    rcases h with rfl | rfl | rfl <;> rfl

theorem landmark_registration_min_landmarks_witness :
    landmark_registration_validate 2 "rigid" =
      .error (.insufficientLandmarks 3 "rigid") ∧
    landmark_registration_validate 3 "rigid" = .ok () := by
  constructor
  · exact (landmark_registration_min_landmarks "rigid" 2 (Or.inl rfl)).1
      (by decide)
  · exact (landmark_registration_min_landmarks "rigid" 3
      (Or.inl rfl)).2.1 (by decide)

/-- C2: a reference-space voxel coordinate with any index negative or not
below the annotation volume's shape classifies as the 'Out of Bounds'
value regardless of the stored region id, and an in-bounds coordinate
whose stored id is 0 classifies as the 'Outside Brain' background
record. -/
theorem classify_ccf_point_bounds (ann : AnnotationVolume)
    (id_to_info : ℤ → Option RegionInfo) (z y x : ℤ) :
    ((z < 0 ∨ (ann.shape.1 : ℤ) ≤ z ∨ y < 0 ∨ (ann.shape.2.1 : ℤ) ≤ y ∨
        x < 0 ∨ (ann.shape.2.2 : ℤ) ≤ x) →
      classify_ccf_point ann id_to_info z y x =
        { id := some (-1), name := "Out of Bounds", acronym := "OOB",
          hierarchy := [], ccf_coords := some (z, y, x) }) ∧
    (¬(z < 0 ∨ (ann.shape.1 : ℤ) ≤ z ∨ y < 0 ∨ (ann.shape.2.1 : ℤ) ≤ y ∨
        x < 0 ∨ (ann.shape.2.2 : ℤ) ≤ x) →
      ann.data z y x = 0 →
      classify_ccf_point ann id_to_info z y x =
        { id := some 0, name := "Outside Brain", acronym := "OUT",
          hierarchy := [], ccf_coords := some (z, y, x) }) := by
  constructor
  · intro hout
    unfold classify_ccf_point
    rw [if_pos hout]
  · intro hin h0
    unfold classify_ccf_point
    rw [if_neg hin]
    simp [h0]

/-- A degenerate 2×2×2 annotation volume whose every voxel stores id 0. -/
def ann_demo : AnnotationVolume := ⟨(2, 2, 2), fun _ _ _ => 0⟩

/-- An empty ontology index. -/
def onto_demo : ℤ → Option RegionInfo := fun _ => none

theorem classify_ccf_point_bounds_witness :
    classify_ccf_point ann_demo onto_demo 5 0 0 =
      { id := some (-1), name := "Out of Bounds", acronym := "OOB",
        hierarchy := [], ccf_coords := some (5, 0, 0) } ∧
    classify_ccf_point ann_demo onto_demo 1 1 1 =
      { id := some 0, name := "Outside Brain", acronym := "OUT",
        hierarchy := [], ccf_coords := some (1, 1, 1) } := by
  constructor
  · exact (classify_ccf_point_bounds ann_demo onto_demo 5 0 0).1 (by decide)
  · exact (classify_ccf_point_bounds ann_demo onto_demo 1 1 1).2
      (by decide) rfl

/-- C6: with `use_registered` set, `transform_point_to_ccf` returns the
input (z, y, x) triple unchanged, for every transform, spacing, and
point — no spacing conversion, transform application, or rounding. -/
theorem transform_point_to_ccf_registered
    (transform : Option ((ℚ × ℚ × ℚ) → (ℚ × ℚ × ℚ))) (spacing : ℚ)
    (z y x : ℤ) :
    transform_point_to_ccf true transform spacing z y x = (z, y, x) := rfl

/-- C8: saving the landmark state and loading the resulting file restores
the moving and fixed landmark lists — same elements, same pairing order,
same counts. -/
theorem save_load_landmarks_roundtrip (s s' : SelectorState)
    (moving_name fixed_name : String) :
    (load_landmarks s' (save_landmarks s moving_name fixed_name)).moving_landmarks
        = s.moving_landmarks ∧
    (load_landmarks s' (save_landmarks s moving_name fixed_name)).fixed_landmarks
        = s.fixed_landmarks ∧
    (load_landmarks s' (save_landmarks s moving_name fixed_name)).moving_landmarks.length
        = s.moving_landmarks.length ∧
    (load_landmarks s' (save_landmarks s moving_name fixed_name)).fixed_landmarks.length
        = s.fixed_landmarks.length := by
  have hid : ∀ p : Point3, list_to_tuple (tuple_to_list p) = p := fun _ => rfl
  refine ⟨?_, ?_, ?_, ?_⟩ <;>
    simp [load_landmarks, save_landmarks, List.map_map, Function.comp_def,
      hid]

/-- The length of a hierarchy walk never exceeds its fuel. -/
theorem hierarchy_loop_length_le (id_to_info : ℤ → Option RegionInfo) :
    ∀ (fuel : Nat) (cur : Option ℤ),
      (hierarchy_loop id_to_info cur fuel).length ≤ fuel := by
  intro fuel
  induction fuel with
  | zero => intro cur; cases cur <;> simp [hierarchy_loop]
  | succ n ih =>
      intro cur
      cases cur with
      | none => simp [hierarchy_loop]
      | some cid =>
          simp only [hierarchy_loop, List.length_cons]
          split
          · simp
          · exact Nat.succ_le_succ (ih _)

/-- C9: the ancestry walk terminates for every ontology map (missing
records and cyclic parent links included) with at most `max_depth` names,
and stops immediately after a region whose parent pointer is the
well-known root id 997. -/
theorem get_region_hierarchy_depth_bounded
    (id_to_info : ℤ → Option RegionInfo) (region_id : ℤ)
    (max_depth : Nat) :
    (get_region_hierarchy id_to_info region_id max_depth).length ≤
        max_depth ∧
    ((get_region_info id_to_info region_id).parent_id = some 997 →
      1 ≤ max_depth →
      get_region_hierarchy id_to_info region_id max_depth =
        [(get_region_info id_to_info region_id).name]) := by
  constructor
  · exact hierarchy_loop_length_le id_to_info max_depth (some region_id)
  · intro hroot hd
    obtain ⟨n, rfl⟩ : ∃ n, max_depth = n + 1 := ⟨max_depth - 1, by omega⟩
    unfold get_region_hierarchy
    simp [hierarchy_loop, hroot]

/-- A one-record ontology whose single region's parent is the root 997. -/
def onto_root_parent : ℤ → Option RegionInfo := fun i =>
  if i = 5 then
    some { id := 5, name := "Region5", acronym := "R5",
           parent_id := some 997, color_hex := "FFFFFF" }
  else none

theorem get_region_hierarchy_depth_bounded_witness :
    (get_region_hierarchy onto_root_parent 5 3).length ≤ 3 ∧
    (get_region_info onto_root_parent 5).parent_id = some 997 ∧
    get_region_hierarchy onto_root_parent 5 3 = ["Region5"] := by
  refine ⟨(get_region_hierarchy_depth_bounded onto_root_parent 5 3).1,
    rfl, ?_⟩
  have h := (get_region_hierarchy_depth_bounded onto_root_parent 5 3).2
    rfl (by norm_num)
  simpa using h

/-- C10: every state-changing selector operation preserves the invariant
"fixed count ≤ moving count"; a fixed landmark is appended exactly when
the fixed count is strictly below the moving count, and a click with the
counts already balanced changes nothing. -/
theorem selector_pairing_invariant (s : SelectorState) (lm : Point3)
    (h : pairing_invariant s) :
    pairing_invariant (onclick_moving s lm) ∧
    pairing_invariant (onclick_fixed s lm) ∧
    pairing_invariant (on_undo s) ∧
    (s.fixed_landmarks.length < s.moving_landmarks.length →
      (onclick_fixed s lm).fixed_landmarks = s.fixed_landmarks ++ [lm]) ∧
    (s.moving_landmarks.length ≤ s.fixed_landmarks.length →
      onclick_fixed s lm = s) := by
  unfold pairing_invariant at *
  refine ⟨?_, ?_, ?_, ?_, ?_⟩
  · simp only [onclick_moving, List.length_append]
    omega
  · unfold onclick_fixed
    split
    · exact h
    · simp only [List.length_append, List.length_cons, List.length_nil]
      omega
  · unfold on_undo
    by_cases hA : s.moving_landmarks ≠ [] ∧ s.fixed_landmarks ≠ []
    · simp only [if_pos hA, List.length_dropLast]
      omega
    · by_cases hB : s.moving_landmarks ≠ []
      · simp only [if_neg hA, if_pos hB]
        have hf : s.fixed_landmarks = [] := by
          by_contra hf
          exact hA ⟨hB, hf⟩
        simp [hf]
      · simp only [if_neg hA, if_neg hB]
        exact h
  · intro hlt
    unfold onclick_fixed
    rw [if_neg (not_le.mpr hlt)]
  · intro hle
    unfold onclick_fixed
    rw [if_pos hle]

/-- A selector state holding one complete pair plus one unpaired moving
landmark. -/
def sel_demo : SelectorState :=
  { moving_landmarks := [(0, 0, 0), (1, 2, 3)],
    fixed_landmarks := [(4, 5, 6)],
    landmark_names := ["Point_1"] }

theorem selector_pairing_invariant_witness :
    pairing_invariant sel_demo ∧
    pairing_invariant (onclick_moving sel_demo (7, 8, 9)) ∧
    pairing_invariant (onclick_fixed sel_demo (7, 8, 9)) ∧
    pairing_invariant (on_undo sel_demo) ∧
    (onclick_fixed sel_demo (7, 8, 9)).fixed_landmarks =
      sel_demo.fixed_landmarks ++ [(7, 8, 9)] := by
  have h := selector_pairing_invariant sel_demo (7, 8, 9) (by decide)
  exact ⟨by decide, h.1, h.2.1, h.2.2.1, h.2.2.2.1 (by decide)⟩

/-- C5: when the rotation angle after the mandatory handedness negation
and the optional reversal is below the 0.001 threshold in absolute value,
`apply_alignment` returns the identical source volume with no resampling,
clipping, or conversion; the net angle's absolute value always equals the
fitted angle's. -/
theorem apply_alignment_short_circuit {V : Type} (image : V)
    (rotation_angle : ℝ) (rotation_axis : Vec3) (reverse : Bool)
    (h : |net_angle rotation_angle reverse| < 0.001) :
    apply_alignment image rotation_angle rotation_axis reverse =
      .original image ∧
    |net_angle rotation_angle reverse| = |rotation_angle| := by
  constructor
  · simp only [apply_alignment]
    rw [if_pos h]
  · unfold net_angle
    split <;> simp [abs_neg]

theorem apply_alignment_short_circuit_witness :
    |net_angle (1 / 2000 : ℝ) false| < 0.001 ∧
    apply_alignment (7 : ℤ) (1 / 2000 : ℝ) ⟨0, 0, 1⟩ false =
      .original 7 ∧
    |net_angle (1 / 2000 : ℝ) false| = |(1 / 2000 : ℝ)| := by
  have h : |net_angle (1 / 2000 : ℝ) false| < 0.001 := by
    rw [show net_angle (1 / 2000 : ℝ) false = -(1 / 2000) from rfl]
    rw [abs_neg, abs_of_nonneg (by norm_num)]
    norm_num
  exact ⟨h, (apply_alignment_short_circuit (7 : ℤ) (1 / 2000 : ℝ)
    ⟨0, 0, 1⟩ false h).1,
    (apply_alignment_short_circuit (7 : ℤ) (1 / 2000 : ℝ)
    ⟨0, 0, 1⟩ false h).2⟩

/-- C4: when the cross product between the fitted normal and the
canonical +X axis has magnitude below the 1e-6 epsilon, the fit emits
rotation angle exactly 0. -/
theorem fit_rotation_degenerate_angle_zero (normal : Vec3)
    (h : rotation_axis_norm normal < 1e-6) :
    (fit_rotation normal).2 = 0 := by
  unfold fit_rotation
  rw [if_neg (not_lt.mpr h.le)]

theorem fit_rotation_degenerate_angle_zero_witness :
    rotation_axis_norm ⟨1, 0, 0⟩ < 1e-6 ∧
    (fit_rotation ⟨1, 0, 0⟩).2 = 0 := by
  have h : rotation_axis_norm ⟨1, 0, 0⟩ < 1e-6 := by
    have h0 : rotation_axis_norm ⟨1, 0, 0⟩ = Real.sqrt 0 := by
      unfold rotation_axis_norm vnorm raw_rotation_axis vcross
        target_normal vdot
      norm_num
    rw [h0, Real.sqrt_zero]
    norm_num
  exact ⟨h, fit_rotation_degenerate_angle_zero ⟨1, 0, 0⟩ h⟩

/-- C3: in the non-degenerate branch, applying the candidate rotation to
a unit fitted normal: whenever the rotated normal is not strictly closer
to the canonical axis than the unrotated normal, the fit negates both the
axis and the angle, and otherwise leaves both unchanged.  (With the
candidate axis and angle as computed, the rotated normal always lands
exactly on the canonical axis, so the negation branch is in fact
unreachable.) -/
theorem fit_rotation_verification (normal : Vec3)
    (h1 : vdot normal normal = 1)
    (h2 : rotation_axis_norm normal > 1e-6) :
    (¬ vdot normal target_normal <
          vdot (rotated_normal normal) target_normal →
        fit_rotation normal =
          (vneg (cand_axis normal), -(cand_angle normal))) ∧
    (vdot normal target_normal <
          vdot (rotated_normal normal) target_normal →
        fit_rotation normal = (cand_axis normal, cand_angle normal)) := by
  have hraw : raw_rotation_axis normal = ⟨0, normal.z, -normal.y⟩ := by
    unfold raw_rotation_axis vcross target_normal
    ext <;> dsimp <;> ring
  have hd : vdot (raw_rotation_axis normal) (raw_rotation_axis normal) =
      normal.y ^ 2 + normal.z ^ 2 := by
    rw [hraw]
    unfold vdot
    dsimp
    ring
  have hr : rotation_axis_norm normal =
      Real.sqrt (normal.y ^ 2 + normal.z ^ 2) := by
    unfold rotation_axis_norm vnorm
    rw [hd]
  have hrpos : 0 < rotation_axis_norm normal :=
    lt_trans (by norm_num) h2
  have hrne : rotation_axis_norm normal ≠ 0 := ne_of_gt hrpos
  have hrsq : rotation_axis_norm normal * rotation_axis_norm normal =
      normal.y ^ 2 + normal.z ^ 2 := by
    rw [hr]
    exact Real.mul_self_sqrt (by positivity)
  have hsum : normal.x ^ 2 + normal.y ^ 2 + normal.z ^ 2 = 1 := by
    unfold vdot at h1
    linear_combination h1
  have hyz : 0 < normal.y ^ 2 + normal.z ^ 2 := by
    have := mul_pos hrpos hrpos
    rwa [hrsq] at this
  have hx2 : normal.x ^ 2 < 1 := by nlinarith
  have hxlt : normal.x < 1 := by nlinarith
  have hxge : -1 ≤ normal.x := by nlinarith
  have hxle : normal.x ≤ 1 := le_of_lt hxlt
  have hdt : vdot normal target_normal = normal.x := by
    unfold vdot target_normal
    dsimp
    ring
  have hclip : cos_angle normal = normal.x := by
    unfold cos_angle
    rw [hdt, min_eq_right hxle, max_eq_right hxge]
  have hcos : Real.cos (cand_angle normal) = normal.x := by
    unfold cand_angle
    rw [hclip, Real.cos_arccos hxge hxle]
  have hsin : Real.sin (cand_angle normal) = rotation_axis_norm normal := by
    unfold cand_angle
    rw [hclip, Real.sin_arccos, hr]
    congr 1
    linarith
  have hkey : rotated_normal normal = target_normal := by
    unfold rotated_normal rodrigues cand_axis
    rw [hraw, hcos, hsin]
    unfold vadd vsmul vcross vdot target_normal
    ext <;> dsimp <;> field_simp <;>
      first
      | ring1
      | linarith [hsum]
  have hafter : vdot (rotated_normal normal) target_normal = 1 := by
    rw [hkey]
    unfold vdot target_normal
    norm_num
  have hcloser : vdot normal target_normal <
      vdot (rotated_normal normal) target_normal := by
    rw [hafter, hdt]
    exact hxlt
  constructor
  · intro hcon
    exact absurd hcloser hcon
  · intro _
    unfold fit_rotation
    rw [if_pos h2, if_neg (by rw [hafter, hdt]; push_neg; linarith)]

/-- A unit normal tilted 53° from the canonical axis inside the xy
plane. -/
noncomputable def tilted_normal : Vec3 := ⟨3 / 5, 4 / 5, 0⟩

theorem fit_rotation_verification_witness :
    vdot tilted_normal tilted_normal = 1 ∧
    rotation_axis_norm tilted_normal > 1e-6 ∧
    ((¬ vdot tilted_normal target_normal <
          vdot (rotated_normal tilted_normal) target_normal →
        fit_rotation tilted_normal =
          (vneg (cand_axis tilted_normal), -(cand_angle tilted_normal))) ∧
     (vdot tilted_normal target_normal <
          vdot (rotated_normal tilted_normal) target_normal →
        fit_rotation tilted_normal =
          (cand_axis tilted_normal, cand_angle tilted_normal))) := by
  have hu : vdot tilted_normal tilted_normal = 1 := by
    unfold tilted_normal vdot
    norm_num
  have hn : rotation_axis_norm tilted_normal > 1e-6 := by
    have h0 : rotation_axis_norm tilted_normal = Real.sqrt ((4 / 5) ^ 2) := by
      unfold rotation_axis_norm vnorm raw_rotation_axis vcross
        target_normal vdot tilted_normal
      norm_num
    rw [h0, Real.sqrt_sq (by norm_num)]
    norm_num
  exact ⟨hu, hn, fit_rotation_verification tilted_normal hu hn⟩

/-- The matrix-vector product distributes over a list sum of matrices. -/
theorem list_sum_mulVec (l : List (Matrix (Fin 4) (Fin 4) ℚ))
    (v : Fin 4 → ℚ) :
    l.sum.mulVec v = (l.map fun M => M.mulVec v).sum := by
  induction l with
  | nil => simp [Matrix.zero_mulVec]
  | cons M l ih => simp [Matrix.add_mulVec, ih]

/-- C7: a degenerate landmark configuration — all subject points on one
common plane (coplanar, hence also any collinear configuration) — makes
the normal-equations matrix singular, and the affine solve fails with the
`DegenerateConfiguration` error. -/
theorem solve_affine_coplanar_degenerate
    (moving fixed : List (ℚ × ℚ × ℚ))
    (h : ∃ a b c d : ℚ, ¬(a = 0 ∧ b = 0 ∧ c = 0 ∧ d = 0) ∧
      ∀ p ∈ moving, a * p.1 + b * p.2.1 + c * p.2.2 + d = 0) :
    solve_affine moving fixed = .error .degenerateConfiguration := by
  obtain ⟨a, b, c, d, hne, hplane⟩ := h
  have hterm : ∀ p ∈ moving,
      (outer4 (homog p)).mulVec ![a, b, c, d] = 0 := by
    intro p hp
    have hpl := hplane p hp
    funext i
    fin_cases i
    · simp [outer4, homog, Matrix.mulVec, Matrix.dotProduct,
        Fin.sum_univ_four]
      linear_combination p.1 * hpl
    · simp [outer4, homog, Matrix.mulVec, Matrix.dotProduct,
        Fin.sum_univ_four]
      linear_combination p.2.1 * hpl
    · simp [outer4, homog, Matrix.mulVec, Matrix.dotProduct,
        Fin.sum_univ_four]
      linear_combination p.2.2 * hpl
    · simp [outer4, homog, Matrix.mulVec, Matrix.dotProduct,
        Fin.sum_univ_four]
      linear_combination hpl
  have hmv : (affine_normal_matrix moving).mulVec ![a, b, c, d] = 0 := by
    unfold affine_normal_matrix
    rw [list_sum_mulVec, List.map_map]
    apply List.sum_eq_zero
    intro w hw
    obtain ⟨p, hp, rfl⟩ := List.mem_map.mp hw
    exact hterm p hp
  have hvne : ![a, b, c, d] ≠ 0 := by
    intro h0
    apply hne
    exact ⟨by simpa using congrFun h0 0, by simpa using congrFun h0 1,
      by simpa using congrFun h0 2, by simpa using congrFun h0 3⟩
  have hdet : (affine_normal_matrix moving).det = 0 := by
    rw [← Matrix.exists_mulVec_eq_zero_iff]
    exact ⟨![a, b, c, d], hvne, hmv⟩
  simp only [solve_affine]
  rw [if_pos hdet]

/-- Four coplanar (z = 0) subject landmarks. -/
def coplanar_moving : List (ℚ × ℚ × ℚ) :=
  [(0, 0, 0), (1, 0, 0), (0, 1, 0), (1, 1, 0)]

theorem solve_affine_coplanar_degenerate_witness :
    (∃ a b c d : ℚ, ¬(a = 0 ∧ b = 0 ∧ c = 0 ∧ d = 0) ∧
      ∀ p ∈ coplanar_moving, a * p.1 + b * p.2.1 + c * p.2.2 + d = 0) ∧
    solve_affine coplanar_moving coplanar_moving =
      .error .degenerateConfiguration := by
  have hex : ∃ a b c d : ℚ, ¬(a = 0 ∧ b = 0 ∧ c = 0 ∧ d = 0) ∧
      ∀ p ∈ coplanar_moving, a * p.1 + b * p.2.1 + c * p.2.2 + d = 0 := by
    refine ⟨0, 0, 1, 0, by norm_num, ?_⟩
    intro p hp
    fin_cases hp <;> norm_num
  exact ⟨hex,
    solve_affine_coplanar_degenerate coplanar_moving coplanar_moving hex⟩

end MfaCT
